import Mathlib

set_option maxHeartbeats 1000000
set_option maxRecDepth 8000

/-!
Shallow embedding of the Broadway Market air-quality dashboard (`src/app.py`).

The dashboard loads a CSV of sensor readings into a dataframe, attaches a
location name per sensor id, and renders four views: a time-series chart,
a weekly-pattern chart, a single-day chart and a map.  The embedding below
models the processed dataframe rows, the static reference tables
(`SENSOR_MAPPING`, `COLOR_SCALE`, `data_ranges`), the classifier
`get_color_for_value`, the grouping/averaging performed by the three chart
builders, the map's time-index handling and the navigation buttons in
`main`.  Values are rationals; a missing (NaN) cell is `Option.none`.
-/

/-- One entry of `COLOR_SCALE`: `max` is the inclusive upper bound of the
band (`none` standing for `float('inf')`), `color` the hex color and
`name` the band label. -/
structure Band where
  max : Option ℚ
  color : String
  name : String
deriving DecidableEq

/-- The `'PM2.5'` list of `COLOR_SCALE` (src/app.py lines 90-134);
11.5 = 23/2, 23.5 = 47/2, and so on. -/
def PM25_SCALE : List Band :=
  [⟨some (23/2), "#2E8B57", "SeaGreen"⟩,
   ⟨some (47/2), "#3CB371", "MediumSeaGreen"⟩,
   ⟨some (71/2), "#9ACD32", "YellowGreen"⟩,
   ⟨some (83/2), "#FFFF00", "Yellow"⟩,
   ⟨some (95/2), "#FFA500", "Orange"⟩,
   ⟨some (107/2), "#FF8C00", "DarkOrange"⟩,
   ⟨some (117/2), "#FF4500", "OrangeRed"⟩,
   ⟨some (129/2), "#DC143C", "Crimson"⟩,
   ⟨some (141/2), "#B22222", "FireBrick"⟩,
   ⟨some 120, "#800080", "Purple"⟩,
   ⟨none, "#310154", "Deep Violet"⟩]

/-- The `'PM10'` list of `COLOR_SCALE` (src/app.py lines 135-179). -/
def PM10_SCALE : List Band :=
  [⟨some (33/2), "#2E8B57", "SeaGreen"⟩,
   ⟨some (67/2), "#3CB371", "MediumSeaGreen"⟩,
   ⟨some (101/2), "#9ACD32", "YellowGreen"⟩,
   ⟨some (117/2), "#FFFF00", "Yellow"⟩,
   ⟨some (133/2), "#FFA500", "Orange"⟩,
   ⟨some (151/2), "#FF8C00", "DarkOrange"⟩,
   ⟨some (167/2), "#FF4500", "OrangeRed"⟩,
   ⟨some (183/2), "#DC143C", "Crimson"⟩,
   ⟨some (201/2), "#B22222", "FireBrick"⟩,
   ⟨some 180, "#800080", "Purple"⟩,
   ⟨none, "#310154", "Deep Violet"⟩]

/-- The `'PM1'` list of `COLOR_SCALE` (src/app.py lines 180-226): a verbatim
copy of the PM2.5 scale, as in the source. -/
def PM1_SCALE : List Band :=
  [⟨some (23/2), "#2E8B57", "SeaGreen"⟩,
   ⟨some (47/2), "#3CB371", "MediumSeaGreen"⟩,
   ⟨some (71/2), "#9ACD32", "YellowGreen"⟩,
   ⟨some (83/2), "#FFFF00", "Yellow"⟩,
   ⟨some (95/2), "#FFA500", "Orange"⟩,
   ⟨some (107/2), "#FF8C00", "DarkOrange"⟩,
   ⟨some (117/2), "#FF4500", "OrangeRed"⟩,
   ⟨some (129/2), "#DC143C", "Crimson"⟩,
   ⟨some (141/2), "#B22222", "FireBrick"⟩,
   ⟨some 120, "#800080", "Purple"⟩,
   ⟨none, "#310154", "Deep Violet"⟩]

/-- Pollutant name constants, used where a string literal would otherwise
follow a name in application position. -/
def pm1Label : String := "PM1"

/-- The string `"PM2.5"`. -/
def pm25Label : String := "PM2.5"

/-- The string `"PM10"`. -/
def pm10Label : String := "PM10"

/-- `COLOR_SCALE` as a keyed lookup (a Python dict with keys
`'PM2.5'`, `'PM10'`, `'PM1'`). -/
def COLOR_SCALE (pollutant : String) : Option (List Band) :=
  if pollutant = "PM2.5" then some PM25_SCALE
  else if pollutant = "PM10" then some PM10_SCALE
  else if pollutant = "PM1" then some PM1_SCALE
  else none

/-- `value <= level['max']`, with `none` standing for `float('inf')`. -/
def vle (v : ℚ) : Option ℚ → Bool
  | none => true
  | some m => decide (v ≤ m)

/-- The `for level in scale` loop of `get_color_for_value`
(src/app.py lines 234-236): first band whose bound is not exceeded. -/
def findLevel (v : ℚ) : List Band → Option Band
  | [] => none
  | b :: rest => if vle v b.max then some b else findLevel v rest

/-- `COLOR_SCALE.get(pollutant, COLOR_SCALE['PM2.5'])`
(src/app.py line 232). -/
def scaleFor (pollutant : String) : List Band :=
  (COLOR_SCALE pollutant).getD PM25_SCALE

/-- `get_color_for_value(pollutant, value)` (src/app.py lines 230-239):
scan the scale for the first band with `value <= max`; if the loop
finishes, fall back to `scale[-1]`. -/
def get_color_for_value (pollutant : String) (value : ℚ) : String × String :=
  let scale := scaleFor pollutant
  match findLevel value scale with
  | some level => (level.color, level.name)
  | none => ((scale.getLastD ⟨none, "", ""⟩).color, (scale.getLastD ⟨none, "", ""⟩).name)

/-- Location display names from `SENSOR_MAPPING` (src/app.py lines 60-65). -/
def bm1Name : String := "BM1 - Nr Leather and Lace shop, Longmead Rd entrance"

/-- Display name of sensor 14519. -/
def bm2Name : String := "BM2 - Middle corridor - Fishmonger end of corridor"

/-- Display name of sensor 14548. -/
def bm3Name : String := "BM3 - Tooting High Street/Gems Broadway entrance nr Craft Tooting"

/-- Display name of sensor 14868. -/
def bm4Name : String := "BM4 - Tooting High Street/Aldi/new flats Entrance nr Chinese Food"

/-- `SENSOR_MAPPING` (src/app.py lines 60-65); `df['Sensor id'].map(...)`
yields NaN (`none`) for ids outside the table. -/
def SENSOR_MAPPING (sid : ℤ) : Option String :=
  if sid = 14903 then some bm1Name
  else if sid = 14519 then some bm2Name
  else if sid = 14548 then some bm3Name
  else if sid = 14868 then some bm4Name
  else none

/-- One processed dataframe row after `load_and_process_data`
(src/app.py lines 242-276).  `dayNum : Fin 7` and `hour : Fin 24` because
pandas `dt.dayofweek` (Monday = 0) and `dt.hour` always land in those
ranges; the `day_of_week` name column equals `dayName dayNum` since both
are derived from the same `From` timestamp.  `fromKey` is an ordering key
standing for the `From` timestamp.  A NaN pollutant cell is `none`. -/
structure Reading where
  sensor_id : ℤ
  dayNum : Fin 7
  hour : Fin 24
  fromKey : ℕ
  pm1 : Option ℚ
  pm2_5 : Option ℚ
  pm10 : Option ℚ
deriving DecidableEq

/-- Column selection `df[pollutant]` for the three renamed pollutant
columns (src/app.py lines 269-274). -/
def getPoll (pollutant : String) (r : Reading) : Option ℚ :=
  if pollutant = "PM10" then r.pm10
  else if pollutant = "PM2.5" then r.pm2_5
  else if pollutant = "PM1" then r.pm1
  else none

/-- `dt.day_name()` as a function of `dt.dayofweek`: Monday = 0 through
Sunday = 6. -/
def dayName (d : Fin 7) : String :=
  if d.val = 0 then "Monday"
  else if d.val = 1 then "Tuesday"
  else if d.val = 2 then "Wednesday"
  else if d.val = 3 then "Thursday"
  else if d.val = 4 then "Friday"
  else if d.val = 5 then "Saturday"
  else "Sunday"

/-- `df['Location_Name'].notna()` for one row: the sensor id is in the
location table. -/
def hasLocation (r : Reading) : Bool :=
  (SENSOR_MAPPING r.sensor_id).isSome

/-- `df_valid = df[df['Location_Name'].notna()]`
(src/app.py lines 288, 344, 433, 508). -/
def validRows (rows : List Reading) : List Reading :=
  rows.filter hasLocation

/-- Helper for pandas `.unique()`: keep the first occurrence of each
element, in order. -/
def uniqAux : List String → List String → List String
  | [], _ => []
  | x :: xs, seen => if x ∈ seen then uniqAux xs seen else x :: uniqAux xs (x :: seen)

/-- `df[df['Location_Name'].notna()]['Location_Name'].unique()`
(src/app.py line 288): distinct location names in first-occurrence
order. -/
def uniqNames (rows : List Reading) : List String :=
  uniqAux (rows.filterMap (fun r => SENSOR_MAPPING r.sensor_id)) []

/-- `sensor_data = df[df['Location_Name'] == sensor]`
(src/app.py line 298). -/
def sensorRows (rows : List Reading) (s : String) : List Reading :=
  rows.filter (fun r => decide (SENSOR_MAPPING r.sensor_id = some s))

/-- One loop iteration of `create_time_series_chart` (src/app.py
lines 297-312): `none` when the sensor is skipped because every value of
the selected pollutant is NaN (`isna().all()`), else the `(name, points)`
trace whose points are `(From, value)` with NaN kept as `none`. -/
def seriesTraceFor (rows : List Reading) (pollutant s : String) :
    Option (String × List (ℕ × Option ℚ)) :=
  if (sensorRows rows s).all (fun r => (getPoll pollutant r).isNone) then none
  else some (s, (sensorRows rows s).map (fun r => (r.fromKey, getPoll pollutant r)))

/-- The trace list built by the sensor loop of `create_time_series_chart`
(src/app.py lines 297-312). -/
def seriesTraces (rows : List Reading) (pollutant : String) :
    List (String × List (ℕ × Option ℚ)) :=
  (uniqNames rows).filterMap (seriesTraceFor rows pollutant)

/-- One group of
`df_valid.groupby(['day_num', 'day_of_week', 'hour', 'Location_Name'])`
(src/app.py lines 351-353): `day_of_week` is determined by `day_num`, so
the key reduces to `(day, hour, name)`. -/
def groupRows (rows : List Reading) (s : String) (d : Fin 7) (h : Fin 24) :
    List Reading :=
  rows.filter (fun r =>
    decide (r.dayNum = d ∧ r.hour = h ∧ SENSOR_MAPPING r.sensor_id = some s))

/-- The non-NaN pollutant values of one weekly group; pandas `mean()`
drops NaN cells. -/
def groupVals (rows : List Reading) (pollutant s : String) (d : Fin 7)
    (h : Fin 24) : List ℚ :=
  (groupRows rows s d h).filterMap (getPoll pollutant)

/-- Pandas `Series.mean()` over an all-or-partially-NaN column slice:
`none` when no non-NaN value exists, else the arithmetic mean of the
non-NaN values. -/
def meanOpt (vals : List ℚ) : Option ℚ :=
  if vals = [] then none else some (vals.sum / (vals.length : ℚ))

/-- One cell of `weekly_pattern` (src/app.py lines 351-353): `none` when
the group is empty (no such row in `df_valid`), otherwise the group's
pandas mean. -/
def weeklyBucket (valid : List Reading) (pollutant s : String) (d : Fin 7)
    (h : Fin 24) : Option (Option ℚ) :=
  if groupRows valid s d h = [] then none
  else some (meanOpt (groupVals valid pollutant s d h))

/-- The weekly-pattern trace of one sensor (src/app.py lines 367-384):
groupby output is sorted by its keys, realized here by enumerating days
and hours in order; `x = day_num * 24 + hour`, `y` the group mean. -/
def weeklyTrace (valid : List Reading) (pollutant s : String) :
    List (ℕ × Option ℚ) :=
  (List.finRange 7).flatMap (fun d =>
    (List.finRange 24).filterMap (fun h =>
      (weeklyBucket valid pollutant s d h).map (fun m => (d.val * 24 + h.val, m))))

/-- The traces added by `create_weekly_pattern_chart` (src/app.py
lines 340-384): one trace per sensor of `df_valid`, with no skip
condition. -/
def weeklyTraces (rows : List Reading) (pollutant : String) :
    List (String × List (ℕ × Option ℚ)) :=
  (uniqNames (validRows rows)).map (fun s =>
    (s, weeklyTrace (validRows rows) pollutant s))

/-- `day_data = df_valid[df_valid['day_of_week'] == selected_day]`
(src/app.py line 440). -/
def dayFilter (valid : List Reading) (selectedDay : String) : List Reading :=
  valid.filter (fun r => decide (dayName r.dayNum = selectedDay))

/-- One group of `day_data.groupby(['hour', 'Location_Name'])`
(src/app.py lines 447-448). -/
def dayGroupRows (dayData : List Reading) (s : String) (h : Fin 24) :
    List Reading :=
  dayData.filter (fun r =>
    decide (r.hour = h ∧ SENSOR_MAPPING r.sensor_id = some s))

/-- Non-NaN pollutant values of one single-day group. -/
def dayGroupVals (dayData : List Reading) (pollutant s : String) (h : Fin 24) :
    List ℚ :=
  (dayGroupRows dayData s h).filterMap (getPoll pollutant)

/-- One cell of `hourly_pattern` (src/app.py lines 447-448). -/
def singleDayBucket (dayData : List Reading) (pollutant s : String)
    (h : Fin 24) : Option (Option ℚ) :=
  if dayGroupRows dayData s h = [] then none
  else some (meanOpt (dayGroupVals dayData pollutant s h))

/-- The single-day trace of one sensor (src/app.py lines 456-471):
`x = hour`, `y` the group mean, hours in groupby key order. -/
def singleDayTrace (dayData : List Reading) (pollutant s : String) :
    List (ℕ × Option ℚ) :=
  (List.finRange 24).filterMap (fun h =>
    (singleDayBucket dayData pollutant s h).map (fun m => (h.val, m)))

/-- One loop iteration of `create_single_day_chart` (src/app.py
lines 456-471): `none` when the sensor has no `hourly_pattern` rows
(`len(sensor_data) == 0`), else its `(name, points)` trace. -/
def singleDayTraceFor (dayData : List Reading) (pollutant s : String) :
    Option (String × List (ℕ × Option ℚ)) :=
  if singleDayTrace dayData pollutant s = [] then none
  else some (s, singleDayTrace dayData pollutant s)

/-- The traces added by `create_single_day_chart` (src/app.py
lines 429-471): sensors come from `df_valid`, the rows from `day_data`
(the selected weekday only). -/
def singleDayTraces (rows : List Reading) (pollutant selectedDay : String) :
    List (String × List (ℕ × Option ℚ)) :=
  (uniqNames (validRows rows)).filterMap
    (singleDayTraceFor (dayFilter (validRows rows) selectedDay) pollutant)

/-- Total non-NaN observation count aggregated into the weekly buckets of
one sensor: the sum of the weekly group sizes over all 168 buckets. -/
def weeklyObsCount (rows : List Reading) (pollutant s : String) : ℕ :=
  ((List.finRange 7).map (fun d =>
    ((List.finRange 24).map (fun h =>
      (groupVals (validRows rows) pollutant s d h).length)).sum)).sum

/-- Total non-NaN observation count aggregated into the single-day buckets
of one sensor for one selected day. -/
def singleDayObsCount (rows : List Reading) (pollutant selectedDay s : String) :
    ℕ :=
  ((List.finRange 24).map (fun h =>
    (dayGroupVals (dayFilter (validRows rows) selectedDay) pollutant s h).length)).sum

/-- The `time_points` list of `create_map_visualization`
(src/app.py lines 520-527): all `(day_num, hour)` pairs in order; the
position of a pair in the list equals its `time_idx = day_num * 24 +
hour`. -/
def time_points : List (ℕ × ℕ) :=
  (List.range 7).flatMap (fun day_num => (List.range 24).map (fun hour => (day_num, hour)))

/-- Python list indexing `l[i]`: non-negative indices from the front,
negative indices from the back, `none` (IndexError) outside
`[-len, len)`. -/
def pyIndex (l : List (ℕ × ℕ)) (i : ℤ) : Option (ℕ × ℕ) :=
  if 0 ≤ i then l[i.toNat]?
  else if -(l.length : ℤ) ≤ i then l[(l.length + i).toNat]?
  else none

/-- `current_time` of `create_map_visualization` (src/app.py
lines 529-532): an index at or past the end of `time_points` is reset to
0, then the list is indexed with Python semantics. -/
def mapCurrentTime (selected_time_idx : ℤ) : Option (ℕ × ℕ) :=
  pyIndex time_points
    (if (time_points.length : ℤ) ≤ selected_time_idx then 0 else selected_time_idx)

/-- The `-24h` button handler in `main` (src/app.py lines 845-848). -/
def btn_minus_24h (t : ℤ) : ℤ := max 0 (t - 24)

/-- The `-1h` button handler (src/app.py lines 851-854). -/
def btn_minus_1h (t : ℤ) : ℤ := max 0 (t - 1)

/-- The `+1h` button handler (src/app.py lines 861-864). -/
def btn_plus_1h (t : ℤ) : ℤ := min 167 (t + 1)

/-- The `+24h` button handler (src/app.py lines 867-870). -/
def btn_plus_24h (t : ℤ) : ℤ := min 167 (t + 24)

/-- The `data_ranges` size-calibration table of `create_map_visualization`
(src/app.py lines 583-596): per-pollutant `(min, max)`. -/
def data_ranges (pollutant : String) : Option (ℚ × ℚ) :=
  if pollutant = "PM1" then some (4/10, 23878/100)
  else if pollutant = "PM2.5" then some (69/100, 27745/100)
  else if pollutant = "PM10" then some (767/100, 28398/100)
  else none

/-- Marker size computation of `create_map_visualization` (src/app.py
lines 598-607): normalize into the calibration range, clamp to `[0, 1]`,
then `25 + normalized * 40`. -/
def markerSize (min_val max_val value : ℚ) : ℚ :=
  let normalized := (value - min_val) / (max_val - min_val)
  let clamped := max 0 (min 1 normalized)
  25 + clamped * 40

/-- `b` is the first band of `scale` whose inclusive upper bound admits
`v`: every earlier band's bound is strictly below `v`. -/
def IsFirstMatch (scale : List Band) (v : ℚ) (b : Band) : Prop :=
  ∃ l1 l2, scale = l1 ++ b :: l2 ∧ vle v b.max = true ∧ ∀ c ∈ l1, vle v c.max = false

/-- Scenario rows for the weekly mean: sensor 14903 reports PM2.5 = 16 on
a Monday at 00:00 and PM2.5 = 14 one week later (same weekday and hour,
different timestamp). -/
def demoRows : List Reading :=
  [⟨14903, 0, 0, 0, none, some 16, none⟩, ⟨14903, 0, 0, 168, none, some 14, none⟩]

/-- A row of known sensor 14903 whose pollutant cells are all NaN. -/
def allAbsentReading : Reading := ⟨14903, 0, 0, 0, none, none, none⟩

/-- A row whose sensor id 999 has no entry in `SENSOR_MAPPING`, carrying
a PM2.5 value of 10. -/
def unknownSensorReading : Reading := ⟨999, 0, 0, 0, none, some 10, none⟩

/-- A pollutant name outside the `COLOR_SCALE` table. -/
def no2Label : String := "NO2"

/-! ## Classifier theorems -/

theorem findLevel_cons (v : ℚ) (c : Band) (rest : List Band) :
    findLevel v (c :: rest) = if vle v c.max then some c else findLevel v rest := rfl

theorem findLevel_some_first {v : ℚ} :
    ∀ {l : List Band} {b : Band}, findLevel v l = some b → IsFirstMatch l v b := by
  intro l
  induction l with
  | nil => intro b hb; simp [findLevel] at hb
  | cons c rest ih =>
    intro b hb
    rw [findLevel_cons] at hb
    cases hc : vle v c.max with
    | true =>
      rw [hc, if_pos rfl, Option.some_inj] at hb
      exact ⟨[], rest, by rw [hb]; rfl, by rw [← hb]; exact hc, by simp⟩
    | false =>
      rw [hc] at hb
      simp only [Bool.false_eq_true, if_false] at hb
      obtain ⟨l1, l2, heq, hvb, hall⟩ := ih hb
      refine ⟨c :: l1, l2, by rw [heq]; rfl, hvb, ?_⟩
      intro x hx
      rcases List.mem_cons.mp hx with rfl | hx2
      · exact hc
      · exact hall x hx2

theorem findLevel_some_of_inf {v : ℚ} :
    ∀ {l : List Band}, (∃ b ∈ l, b.max = none) → ∃ b, findLevel v l = some b := by
  intro l
  induction l with
  | nil => rintro ⟨b, hb, _⟩; exact absurd hb (List.not_mem_nil b)
  | cons c rest ih =>
    rintro ⟨b, hb, hmax⟩
    cases hc : vle v c.max with
    | true => exact ⟨c, by rw [findLevel_cons, hc, if_pos rfl]⟩
    | false =>
      rcases List.mem_cons.mp hb with rfl | hb2
      · rw [hmax] at hc; simp [vle] at hc
      · obtain ⟨b2, hb3⟩ := ih ⟨b, hb2, hmax⟩
        refine ⟨b2, ?_⟩
        rw [findLevel_cons, hc]
        simpa using hb3

theorem isFirstMatch_mem {l : List Band} {v : ℚ} {b : Band}
    (h : IsFirstMatch l v b) : b ∈ l := by
  obtain ⟨l1, l2, rfl, _, _⟩ := h
  exact List.mem_append_right l1 (List.mem_cons_self b l2)

theorem scaleFor_has_inf (p : String) : ∃ b ∈ scaleFor p, b.max = none := by
  unfold scaleFor COLOR_SCALE
  split_ifs <;> decide

theorem get_color_eq_of_findLevel {p : String} {v : ℚ} {b : Band}
    (h : findLevel v (scaleFor p) = some b) :
    get_color_for_value p v = (b.color, b.name) := by
  simp only [get_color_for_value, h]

/-- C2: for every pollutant with a band table and every non-negative
value, `get_color_for_value` returns the color and label of the first
band whose inclusive upper bound is at least the value; in particular
PM2.5 at 11.5 classifies as SeaGreen and at 11.6 as MediumSeaGreen. -/
theorem classify_first_match :
    (∀ p : String, (p = pm1Label ∨ p = pm25Label ∨ p = pm10Label) →
      ∀ v : ℚ, 0 ≤ v →
        ∃ b, IsFirstMatch (scaleFor p) v b ∧
          get_color_for_value p v = (b.color, b.name)) ∧
    get_color_for_value pm25Label (23/2) = ("#2E8B57", "SeaGreen") ∧
    get_color_for_value pm25Label (58/5) = ("#3CB371", "MediumSeaGreen") := by
  refine ⟨?_,
    by norm_num [get_color_for_value, scaleFor, COLOR_SCALE, pm25Label, PM25_SCALE,
      findLevel_cons, vle],
    by norm_num [get_color_for_value, scaleFor, COLOR_SCALE, pm25Label, PM25_SCALE,
      findLevel_cons, vle]⟩
  intro p _ v _
  obtain ⟨b, hb⟩ := findLevel_some_of_inf (v := v) (scaleFor_has_inf p)
  exact ⟨b, findLevel_some_first hb, get_color_eq_of_findLevel hb⟩

theorem classify_first_match_witness :
    ∃ b, IsFirstMatch (scaleFor pm25Label) 3 b ∧
      get_color_for_value pm25Label 3 = (b.color, b.name) :=
  classify_first_match.1 pm25Label (Or.inr (Or.inl rfl)) 3 (by norm_num)

/-- C10: a pollutant name outside the band table falls back to the PM2.5
band table, and classification is total: for every pollutant string and
value, the result is the color and label of some band of the scale in
use. -/
theorem classify_unknown_pollutant_fallback :
    (∀ p : String, p ≠ pm25Label → p ≠ pm10Label → p ≠ pm1Label → ∀ v : ℚ,
      get_color_for_value p v = get_color_for_value pm25Label v) ∧
    (∀ p : String, ∀ v : ℚ,
      ∃ b ∈ scaleFor p, get_color_for_value p v = (b.color, b.name)) := by
  constructor
  · intro p h1 h2 h3 v
    simp only [pm25Label] at h1
    simp only [pm10Label] at h2
    simp only [pm1Label] at h3
    have hs : scaleFor p = scaleFor pm25Label := by
      simp [scaleFor, COLOR_SCALE, pm25Label, h1, h2, h3]
    simp only [get_color_for_value, hs]
  · intro p v
    obtain ⟨b, hb⟩ := findLevel_some_of_inf (v := v) (scaleFor_has_inf p)
    exact ⟨b, isFirstMatch_mem (findLevel_some_first hb), get_color_eq_of_findLevel hb⟩

theorem classify_unknown_pollutant_fallback_witness :
    get_color_for_value no2Label 5 = get_color_for_value pm25Label 5 :=
  classify_unknown_pollutant_fallback.1 no2Label (by decide) (by decide) (by decide) 5

/-! ## Navigation theorems -/

/-- C4: from any time index in `[0, 167]`, each of the four navigation
buttons lands back in `[0, 167]`; in particular the `+24h` step from 167
stays at 167. -/
theorem nav_steps_stay_in_range :
    (∀ t : ℤ, 0 ≤ t → t ≤ 167 →
      (0 ≤ btn_minus_24h t ∧ btn_minus_24h t ≤ 167) ∧
      (0 ≤ btn_minus_1h t ∧ btn_minus_1h t ≤ 167) ∧
      (0 ≤ btn_plus_1h t ∧ btn_plus_1h t ≤ 167) ∧
      (0 ≤ btn_plus_24h t ∧ btn_plus_24h t ≤ 167)) ∧
    btn_plus_24h 167 = 167 := by
  constructor
  · intro t h0 h1
    simp only [btn_minus_24h, btn_minus_1h, btn_plus_1h, btn_plus_24h]
    omega
  · decide

theorem nav_steps_stay_in_range_witness :
    (0 ≤ btn_minus_24h 167 ∧ btn_minus_24h 167 ≤ 167) ∧
    (0 ≤ btn_minus_1h 167 ∧ btn_minus_1h 167 ≤ 167) ∧
    (0 ≤ btn_plus_1h 167 ∧ btn_plus_1h 167 ≤ 167) ∧
    (0 ≤ btn_plus_24h 167 ∧ btn_plus_24h 167 ≤ 167) :=
  nav_steps_stay_in_range.1 167 (by norm_num) (by norm_num)

/-! ## Marker size theorems -/

/-- C7: every calibration pair of `data_ranges` satisfies `min < max`,
and under that hypothesis the marker size is the clamped affine formula
with base 25 and range 40, hence always within `[25, 65]`. -/
theorem marker_size_bounds :
    (∀ p : String, ∀ mn mx : ℚ, data_ranges p = some (mn, mx) → mn < mx) ∧
    (∀ p : String, ∀ mn mx : ℚ, data_ranges p = some (mn, mx) → mn < mx →
      ∀ v : ℚ,
        markerSize mn mx v = 25 + max 0 (min 1 ((v - mn) / (mx - mn))) * 40 ∧
        25 ≤ markerSize mn mx v ∧ markerSize mn mx v ≤ 65) := by
  constructor
  · intro p mn mx hp
    unfold data_ranges at hp
    split_ifs at hp
    · rw [Option.some_inj, Prod.mk.injEq] at hp
      rw [← hp.1, ← hp.2]; norm_num
    · rw [Option.some_inj, Prod.mk.injEq] at hp
      rw [← hp.1, ← hp.2]; norm_num
    · rw [Option.some_inj, Prod.mk.injEq] at hp
      rw [← hp.1, ← hp.2]; norm_num
  · intro p mn mx _ _ v
    refine ⟨rfl, ?_, ?_⟩
    all_goals
      unfold markerSize
      have hc0 : 0 ≤ max 0 (min 1 ((v - mn) / (mx - mn))) := le_max_left 0 _
      have hc1 : max 0 (min 1 ((v - mn) / (mx - mn))) ≤ 1 :=
        max_le (by norm_num) (min_le_left 1 _)
      nlinarith [hc0, hc1]

theorem marker_size_bounds_witness :
    markerSize (69/100) (27745/100) 300 =
        25 + max 0 (min 1 ((300 - 69/100) / (27745/100 - 69/100))) * 40 ∧
      25 ≤ markerSize (69/100) (27745/100) 300 ∧
      markerSize (69/100) (27745/100) 300 ≤ 65 :=
  marker_size_bounds.2 pm25Label (69/100) (27745/100)
    rfl (by norm_num) 300

/-! ## Map time-index theorems -/

/-- C3 is refuted: the request `time_idx = 200` is out of range, yet the
map view resets it to 0 (Monday 00:00) instead of clamping it into
`[0, 167]`, which would select index 167 (Sunday 23:00). -/
theorem map_index_reset_not_clamped :
    mapCurrentTime 200 = some (0, 0) ∧
    pyIndex time_points 167 = some (6, 23) ∧
    mapCurrentTime 200 ≠ pyIndex time_points 167 := by decide

/-- C3 (amended): an out-of-range index at least 168 is reset to 0 and
the map renders Monday 00:00 without an error; a negative index down to
-168 selects a time point from the end of the week (Python indexing)
without an error; an index below -168 fails the list lookup. -/
theorem map_index_out_of_range :
    (∀ i : ℤ, 168 ≤ i → mapCurrentTime i = some (0, 0)) ∧
    (∀ i : ℤ, -168 ≤ i → i < 0 → (mapCurrentTime i).isSome = true) ∧
    (∀ i : ℤ, i < -168 → mapCurrentTime i = none) := by
  have hlen : time_points.length = 168 := by decide
  refine ⟨?_, ?_, ?_⟩
  · intro i hi
    have hge : ((time_points.length : ℤ) ≤ i) := by rw [hlen]; exact_mod_cast hi
    simp only [mapCurrentTime, if_pos hge]
    decide
  · intro i h1 h2
    have hno : ¬ ((time_points.length : ℤ) ≤ i) := by rw [hlen]; omega
    simp only [mapCurrentTime, if_neg hno]
    unfold pyIndex
    rw [if_neg (by omega : ¬ (0:ℤ) ≤ i)]
    rw [if_pos (show -(time_points.length : ℤ) ≤ i by rw [hlen]; omega)]
    have hlt : ((time_points.length : ℤ) + i).toNat < time_points.length := by
      rw [hlen]; omega
    simp [List.getElem?_eq_getElem hlt]
  · intro i hi
    have hno : ¬ ((time_points.length : ℤ) ≤ i) := by rw [hlen]; omega
    simp only [mapCurrentTime, if_neg hno]
    unfold pyIndex
    rw [if_neg (by omega : ¬ (0:ℤ) ≤ i)]
    rw [if_neg (show ¬ -(time_points.length : ℤ) ≤ i by rw [hlen]; omega)]

theorem map_index_out_of_range_witness :
    mapCurrentTime 200 = some (0, 0) ∧
    (mapCurrentTime (-5)).isSome = true ∧
    mapCurrentTime (-500) = none :=
  ⟨map_index_out_of_range.1 200 (by norm_num),
   map_index_out_of_range.2.1 (-5) (by norm_num) (by norm_num),
   map_index_out_of_range.2.2 (-500) (by norm_num)⟩

/-! ## Aggregator theorems -/

theorem uniqAux_cons (x : String) (xs seen : List String) :
    uniqAux (x :: xs) seen =
      if x ∈ seen then uniqAux xs seen else x :: uniqAux xs (x :: seen) := rfl

theorem mem_uniqAux : ∀ (l seen : List String) (x : String),
    x ∈ uniqAux l seen ↔ x ∈ l ∧ x ∉ seen := by
  intro l
  induction l with
  | nil => intro seen x; simp [uniqAux]
  | cons y ys ih =>
    intro seen x
    by_cases hy : y ∈ seen
    · rw [uniqAux_cons, if_pos hy, ih]
      constructor
      · rintro ⟨h1, h2⟩; exact ⟨List.mem_cons_of_mem y h1, h2⟩
      · rintro ⟨h1, h2⟩
        rcases List.mem_cons.mp h1 with rfl | h3
        · exact absurd hy h2
        · exact ⟨h3, h2⟩
    · rw [uniqAux_cons, if_neg hy]
      constructor
      · intro hx
        rcases List.mem_cons.mp hx with rfl | h3
        · exact ⟨List.mem_cons_self x ys, hy⟩
        · obtain ⟨h4, h5⟩ := (ih (y :: seen) x).mp h3
          exact ⟨List.mem_cons_of_mem y h4, fun hc => h5 (List.mem_cons_of_mem y hc)⟩
      · rintro ⟨h1, h2⟩
        rcases List.mem_cons.mp h1 with rfl | h3
        · exact List.mem_cons_self x _
        · by_cases hxy : x = y
          · subst hxy; exact List.mem_cons_self x _
          · refine List.mem_cons_of_mem y ((ih (y :: seen) x).mpr ⟨h3, ?_⟩)
            intro hc
            rcases List.mem_cons.mp hc with h | h
            · exact hxy h
            · exact h2 h

theorem mem_uniqNames {rows : List Reading} {s : String} :
    s ∈ uniqNames rows ↔
      s ∈ rows.filterMap (fun r => SENSOR_MAPPING r.sensor_id) := by
  unfold uniqNames
  rw [mem_uniqAux]
  simp

theorem filterMap_mapping_validRows (rows : List Reading) :
    (validRows rows).filterMap (fun r => SENSOR_MAPPING r.sensor_id) =
      rows.filterMap (fun r => SENSOR_MAPPING r.sensor_id) := by
  induction rows with
  | nil => rfl
  | cons r rest ih =>
    cases hm : SENSOR_MAPPING r.sensor_id with
    | none =>
      simpa [validRows, List.filter_cons, hasLocation, hm, List.filterMap_cons] using ih
    | some s =>
      simpa [validRows, List.filter_cons, hasLocation, hm, List.filterMap_cons] using ih

theorem validRows_idem (rows : List Reading) :
    validRows (validRows rows) = validRows rows := by
  unfold validRows
  rw [List.filter_filter]
  apply List.filter_congr
  intro r _
  rw [Bool.and_self]

theorem sensorRows_validRows (rows : List Reading) (s : String) :
    sensorRows (validRows rows) s = sensorRows rows s := by
  unfold sensorRows validRows
  rw [List.filter_filter]
  apply List.filter_congr
  intro r _
  cases hm : SENSOR_MAPPING r.sensor_id with
  | none => simp [hasLocation, hm]
  | some t => simp [hasLocation, hm]

theorem seriesTraceFor_validRows (rows : List Reading) (p s : String) :
    seriesTraceFor (validRows rows) p s = seriesTraceFor rows p s := by
  unfold seriesTraceFor
  rw [sensorRows_validRows]

theorem seriesTraces_validRows (rows : List Reading) (p : String) :
    seriesTraces (validRows rows) p = seriesTraces rows p := by
  unfold seriesTraces uniqNames
  rw [filterMap_mapping_validRows]
  have hf : seriesTraceFor (validRows rows) p = seriesTraceFor rows p :=
    funext (fun s => seriesTraceFor_validRows rows p s)
  rw [hf]

/-- C1 (amended): readings whose sensor id has no entry in the
sensor-location table are excluded from the time-series view exactly as
from the weekly-pattern view: both views are unchanged when those
readings are deleted from the input. -/
theorem unknown_sensor_excluded_everywhere :
    ∀ rows : List Reading, ∀ p : String,
      seriesTraces rows p = seriesTraces (validRows rows) p ∧
      weeklyTraces rows p = weeklyTraces (validRows rows) p := by
  intro rows p
  constructor
  · exact (seriesTraces_validRows rows p).symm
  · unfold weeklyTraces
    rw [validRows_idem]

/-- C1 is refuted: the reading of sensor 999 (absent from the location
table) carries PM2.5 = 10, yet the time-series view of that one-row input
is empty: its points are not retained, and the weekly view is empty as
well. -/
theorem series_drops_unknown_sensor :
    SENSOR_MAPPING unknownSensorReading.sensor_id = none ∧
    getPoll pm25Label unknownSensorReading = some 10 ∧
    seriesTraces [unknownSensorReading] pm25Label = [] ∧
    weeklyTraces [unknownSensorReading] pm25Label = [] :=
  ⟨rfl, rfl, rfl, rfl⟩

/-- C5: a weekly bucket mean is the arithmetic mean of exactly the
non-absent pollutant values grouped into that bucket (absent cells count
in neither numerator nor denominator), and on the two Monday-00:00
readings 16 and 14 of sensor 14903 taken one week apart the bucket mean
is 15. -/
theorem weekly_mean_excludes_absent :
    (∀ rows : List Reading, ∀ p s : String, ∀ d : Fin 7, ∀ h : Fin 24, ∀ m : ℚ,
      weeklyBucket rows p s d h = some (some m) →
      groupVals rows p s d h ≠ [] ∧
      m = (groupVals rows p s d h).sum / ((groupVals rows p s d h).length : ℚ)) ∧
    weeklyBucket (validRows demoRows) pm25Label bm1Name 0 0 = some (some 15) := by
  constructor
  · intro rows p s d h m hb
    unfold weeklyBucket at hb
    by_cases hg : groupRows rows s d h = []
    · rw [if_pos hg] at hb; exact Option.noConfusion hb
    · rw [if_neg hg, Option.some_inj] at hb
      unfold meanOpt at hb
      by_cases hv : groupVals rows p s d h = []
      · rw [if_pos hv] at hb; exact Option.noConfusion hb
      · rw [if_neg hv, Option.some_inj] at hb
        exact ⟨hv, hb.symm⟩
  · have hval : validRows demoRows = demoRows := rfl
    have hg : groupRows demoRows bm1Name 0 0 = demoRows := rfl
    have hv : groupVals demoRows pm25Label bm1Name 0 0 = [16, 14] := rfl
    unfold weeklyBucket
    rw [hval, hg, hv]
    rw [if_neg (by simp [demoRows] : demoRows ≠ [])]
    unfold meanOpt
    rw [if_neg (by simp : ([16, 14] : List ℚ) ≠ [])]
    norm_num

theorem weekly_mean_excludes_absent_witness :
    groupVals (validRows demoRows) pm25Label bm1Name 0 0 ≠ [] ∧
    (15 : ℚ) = (groupVals (validRows demoRows) pm25Label bm1Name 0 0).sum /
      ((groupVals (validRows demoRows) pm25Label bm1Name 0 0).length : ℚ) :=
  weekly_mean_excludes_absent.1 (validRows demoRows) pm25Label bm1Name 0 0 15
    weekly_mean_excludes_absent.2

/-- C6 is refuted in weekly mode: sensor 14903 has one row whose PM2.5
cell is absent, so it has zero non-absent PM2.5 readings; the time-series
view omits it, but the weekly-pattern view still lists it with a trace
whose only mean is absent. -/
theorem weekly_keeps_all_absent_sensor :
    getPoll pm25Label allAbsentReading = none ∧
    seriesTraces [allAbsentReading] pm25Label = [] ∧
    weeklyTraces [allAbsentReading] pm25Label = [(bm1Name, [(0, none)])] :=
  ⟨rfl, rfl, rfl⟩

/-- C6 (amended): a sensor whose readings all lack the requested
pollutant is omitted from the time-series view; the weekly-pattern view
keeps one trace per known-location sensor regardless, and for such a
sensor every point of its weekly trace carries an absent mean; the
single-day view keeps any sensor that has at least one row on the
selected day. -/
theorem empty_sensor_omission :
    (∀ rows : List Reading, ∀ p s : String,
      (∀ r ∈ rows, SENSOR_MAPPING r.sensor_id = some s → getPoll p r = none) →
      s ∉ (seriesTraces rows p).map Prod.fst) ∧
    (∀ rows : List Reading, ∀ p : String,
      (weeklyTraces rows p).map Prod.fst = uniqNames (validRows rows)) ∧
    (∀ rows : List Reading, ∀ p s : String,
      (∀ r ∈ rows, SENSOR_MAPPING r.sensor_id = some s → getPoll p r = none) →
      ∀ pr ∈ weeklyTraces rows p, pr.1 = s → ∀ pt ∈ pr.2, pt.2 = none) ∧
    (∀ rows : List Reading, ∀ p dn s : String,
      (∃ r ∈ rows, SENSOR_MAPPING r.sensor_id = some s ∧ dayName r.dayNum = dn) →
      s ∈ (singleDayTraces rows p dn).map Prod.fst) := by
  refine ⟨?_, ?_, ?_, ?_⟩
  · intro rows p s hall hmem
    rw [List.mem_map] at hmem
    obtain ⟨pr, hpr, hfst⟩ := hmem
    unfold seriesTraces at hpr
    rw [List.mem_filterMap] at hpr
    obtain ⟨t, _, hft⟩ := hpr
    unfold seriesTraceFor at hft
    by_cases hb : (sensorRows rows t).all (fun r => (getPoll p r).isNone)
    · rw [if_pos hb] at hft; exact Option.noConfusion hft
    · rw [if_neg hb, Option.some_inj] at hft
      rw [← hft] at hfst
      have ht : t = s := hfst
      subst ht
      rw [List.all_eq_true] at hb
      push_neg at hb
      obtain ⟨r, hr, hne⟩ := hb
      unfold sensorRows at hr
      rw [List.mem_filter] at hr
      have hmapr : SENSOR_MAPPING r.sensor_id = some t := of_decide_eq_true hr.2
      have habs := hall r hr.1 hmapr
      exact hne (by rw [habs]; rfl)
  · intro rows p
    unfold weeklyTraces
    rw [List.map_map]
    have hcomp : (Prod.fst ∘ fun s => (s, weeklyTrace (validRows rows) p s)) = id :=
      funext (fun s => rfl)
    rw [hcomp, List.map_id]
  · intro rows p s hall pr hpr hfst pt hpt
    unfold weeklyTraces at hpr
    rw [List.mem_map] at hpr
    obtain ⟨t, _, hft⟩ := hpr
    rw [← hft] at hfst hpt
    have ht : t = s := hfst
    subst ht
    have hpt2 : pt ∈ weeklyTrace (validRows rows) p t := hpt
    unfold weeklyTrace at hpt2
    rw [List.mem_flatMap] at hpt2
    obtain ⟨d, _, hpt3⟩ := hpt2
    rw [List.mem_filterMap] at hpt3
    obtain ⟨h, _, hmap2⟩ := hpt3
    rw [Option.map_eq_some'] at hmap2
    obtain ⟨mm, hbk, hpt4⟩ := hmap2
    have hgv : groupVals (validRows rows) p t d h = [] := by
      unfold groupVals
      rw [List.filterMap_eq_nil_iff]
      intro r hrg
      unfold groupRows at hrg
      rw [List.mem_filter] at hrg
      have hprops := of_decide_eq_true hrg.2
      exact hall r (List.mem_of_mem_filter hrg.1) hprops.2.2
    unfold weeklyBucket at hbk
    by_cases hg : groupRows (validRows rows) t d h = []
    · rw [if_pos hg] at hbk; exact Option.noConfusion hbk
    · rw [if_neg hg, Option.some_inj] at hbk
      rw [← hpt4]
      show mm = none
      rw [← hbk, hgv]
      rfl
  · intro rows p dn s hex
    obtain ⟨r, hr, hmap, hday⟩ := hex
    have hrv : r ∈ validRows rows := by
      unfold validRows
      rw [List.mem_filter]
      exact ⟨hr, by simp [hasLocation, hmap]⟩
    have hsname : s ∈ uniqNames (validRows rows) := by
      rw [mem_uniqNames, List.mem_filterMap]
      exact ⟨r, hrv, hmap⟩
    have hrd : r ∈ dayFilter (validRows rows) dn := by
      unfold dayFilter
      rw [List.mem_filter]
      exact ⟨hrv, by simp [hday]⟩
    have hgr : r ∈ dayGroupRows (dayFilter (validRows rows) dn) s r.hour := by
      unfold dayGroupRows
      rw [List.mem_filter]
      exact ⟨hrd, by simp [hmap]⟩
    have hbne : dayGroupRows (dayFilter (validRows rows) dn) s r.hour ≠ [] :=
      List.ne_nil_of_mem hgr
    have hbucket :
        singleDayBucket (dayFilter (validRows rows) dn) p s r.hour =
          some (meanOpt (dayGroupVals (dayFilter (validRows rows) dn) p s r.hour)) := by
      unfold singleDayBucket
      rw [if_neg hbne]
    have htr :
        (r.hour.val, meanOpt (dayGroupVals (dayFilter (validRows rows) dn) p s r.hour)) ∈
          singleDayTrace (dayFilter (validRows rows) dn) p s := by
      unfold singleDayTrace
      rw [List.mem_filterMap]
      exact ⟨r.hour, List.mem_finRange r.hour, by rw [hbucket]; rfl⟩
    have htne : singleDayTrace (dayFilter (validRows rows) dn) p s ≠ [] :=
      List.ne_nil_of_mem htr
    rw [List.mem_map]
    refine ⟨(s, singleDayTrace (dayFilter (validRows rows) dn) p s), ?_, rfl⟩
    unfold singleDayTraces
    rw [List.mem_filterMap]
    refine ⟨s, hsname, ?_⟩
    unfold singleDayTraceFor
    rw [if_neg htne]

theorem empty_sensor_omission_witness :
    bm1Name ∉ (seriesTraces [allAbsentReading] pm25Label).map Prod.fst ∧
    bm1Name ∈ (singleDayTraces [allAbsentReading] pm25Label (dayName 0)).map Prod.fst :=
  ⟨empty_sensor_omission.1 [allAbsentReading] pm25Label bm1Name (by decide),
   empty_sensor_omission.2.2.2 [allAbsentReading] pm25Label (dayName 0) bm1Name
     ⟨allAbsentReading, by decide⟩⟩

theorem dayName_inj : ∀ a b : Fin 7, dayName a = dayName b → a = b := by decide

theorem dayGroupRows_dayFilter (valid : List Reading) (s : String) (d : Fin 7)
    (h : Fin 24) :
    dayGroupRows (dayFilter valid (dayName d)) s h = groupRows valid s d h := by
  unfold dayGroupRows dayFilter groupRows
  rw [List.filter_filter]
  apply List.filter_congr
  intro r _
  by_cases h1 : r.dayNum = d
  · by_cases h2 : r.hour = h
    · by_cases h3 : SENSOR_MAPPING r.sensor_id = some s
      · simp [h1, h2, h3]
      · simp [h1, h2, h3]
    · simp [h1, h2]
  · have hne : dayName r.dayNum ≠ dayName d := fun hc => h1 (dayName_inj _ _ hc)
    simp [h1, hne]

theorem dayGroupVals_dayFilter (valid : List Reading) (p s : String) (d : Fin 7)
    (h : Fin 24) :
    dayGroupVals (dayFilter valid (dayName d)) p s h = groupVals valid p s d h := by
  unfold dayGroupVals groupVals
  rw [dayGroupRows_dayFilter]

theorem singleDayBucket_eq_weeklyBucket (valid : List Reading) (p s : String)
    (d : Fin 7) (h : Fin 24) :
    singleDayBucket (dayFilter valid (dayName d)) p s h = weeklyBucket valid p s d h := by
  unfold singleDayBucket weeklyBucket dayGroupVals groupVals
  rw [dayGroupRows_dayFilter]

/-- C8: every weekly bucket mean of a sensor equals the corresponding
single-day bucket mean for that weekday (including absence of the
bucket), and the total non-absent observation count aggregated by the
weekly view equals the sum over the 7 weekdays of the single-day
observation counts. -/
theorem weekly_single_day_agreement :
    ∀ rows : List Reading, ∀ p s : String,
      (∀ d : Fin 7, ∀ h : Fin 24,
        singleDayBucket (dayFilter (validRows rows) (dayName d)) p s h =
          weeklyBucket (validRows rows) p s d h) ∧
      weeklyObsCount rows p s =
        ((List.finRange 7).map (fun d => singleDayObsCount rows p (dayName d) s)).sum := by
  intro rows p s
  constructor
  · intro d h
    exact singleDayBucket_eq_weeklyBucket (validRows rows) p s d h
  · unfold weeklyObsCount singleDayObsCount
    simp only [dayGroupVals_dayFilter]
